import Mathlib

/-!
Verification of the resvg render-tree conversion pass (`crates/resvg/src/tree.rs`).

The source file turns a parsed usvg scene graph into a flattened render tree.
Pure logic from `tree.rs` is embedded directly.  External collaborators
(the usvg geometry/bbox primitives, and the filter, paint-server, clip, mask,
path and image converters living outside this slice) are modelled from the
specification: geometry uses exact rationals in place of IEEE doubles, the
"no content" bounding-box sentinel is `Option.none`, and the panicking
`unwrap` in `UsvgPathBboxExt::to_skia_rect` is made explicit with `Except`.
-/

namespace Resvg

/-- A usvg path bounding box: axis-aligned, double precision in the source,
modelled with exact rationals. -/
structure PathBbox where
  x : ℚ
  y : ℚ
  width : ℚ
  height : ℚ
  deriving DecidableEq, Repr, Inhabited

/-- Modelled from the spec: a bounding-box accumulator is either the
distinguished "no content" sentinel (here `none`, structurally distinct from
every real rectangle, so the tolerance comparison of the source becomes exact)
or a real bounding box. -/
abbrev BboxAcc := Option PathBbox

/-- Modelled from the spec: the sentinel value `usvg::PathBbox::new_bbox()`
a fresh accumulator starts from. -/
def new_bbox : BboxAcc := none

/-- Axis-aligned union of two real bounding boxes, the non-sentinel case of
`usvg::PathBbox::expand`.  Modelled from the spec: union of extents in each
coordinate. -/
def PathBbox.union (a b : PathBbox) : PathBbox :=
  ⟨min a.x b.x, min a.y b.y,
   max (a.x + a.width) (b.x + b.width) - min a.x b.x,
   max (a.y + a.height) (b.y + b.height) - min a.y b.y⟩

/-- Modelled from the spec: `usvg::PathBbox::expand` on an accumulator.
Expanding from the sentinel yields the contribution itself; otherwise the
axis-aligned union is taken. -/
def expand : BboxAcc → PathBbox → BboxAcc
  | none, r => some r
  | some s, r => some (s.union r)

/-- Magnitude threshold at which f64→f32 narrowing overflows to infinity:
(2 - 2 ^ (-23)) * 2 ^ 127 rounded up by half an ulp, i.e. 2 ^ 128 - 2 ^ 103,
written as an explicit numeral. -/
def f32Overflow : ℚ := 340282356779733661637539395458142568448

/-- Modelled from the spec: f64→f32 narrowing (`as f32`).  A finite double
narrows to a finite float exactly when its magnitude stays below the overflow
threshold; `none` models an infinite result.  In-range rounding is elided in
the exact model. -/
def narrowF32 (q : ℚ) : Option ℚ := if |q| < f32Overflow then some q else none

/-- A tiny_skia rectangle (device space, single precision in the source),
stored as left/top/right/bottom. -/
structure TSRect where
  left : ℚ
  top : ℚ
  right : ℚ
  bottom : ℚ
  deriving DecidableEq, Repr

/-- Modelled from the spec: `tiny_skia::Rect::from_ltrb` — all sides must be
finite, with left ≤ right and top ≤ bottom. -/
def rect_from_ltrb (l t r b : ℚ) : Option TSRect :=
  if |l| < f32Overflow ∧ |t| < f32Overflow ∧ |r| < f32Overflow ∧ |b| < f32Overflow
      ∧ l ≤ r ∧ t ≤ b then
    some ⟨l, t, r, b⟩
  else
    none

/-- Modelled from the spec: `tiny_skia::Rect::from_xywh`, i.e.
`from_ltrb(x, y, x + w, y + h)` with single-precision sums. -/
def rect_from_xywh (x y w h : ℚ) : Option TSRect := rect_from_ltrb x y (x + w) (y + h)

/-- The checked part of `UsvgPathBboxExt::to_skia_rect`: narrow every
coordinate of the bounding box to f32 and build the tiny_skia rectangle.
`none` is exactly the case in which the source code's `.unwrap()` panics. -/
def PathBbox.to_skia_rect? (bb : PathBbox) : Option TSRect := do
  let x ← narrowF32 bb.x
  let y ← narrowF32 bb.y
  let w ← narrowF32 bb.width
  let h ← narrowF32 bb.height
  rect_from_xywh x y w h

/-- A usvg rectangle: finite with positive width and height. -/
structure URect where
  x : ℚ
  y : ℚ
  width : ℚ
  height : ℚ
  deriving DecidableEq, Repr

/-- A usvg size (document width and height). -/
structure Size where
  width : ℚ
  height : ℚ
  deriving DecidableEq, Repr

/-- `usvg::Rect::size`. -/
def URect.size (r : URect) : Size := ⟨r.width, r.height⟩

/-- Modelled from the spec: `usvg::PathBbox::to_rect` succeeds only for a
non-degenerate (positive-area) box. -/
def PathBbox.to_rect? (bb : PathBbox) : Option URect :=
  if 0 < bb.width ∧ 0 < bb.height then some ⟨bb.x, bb.y, bb.width, bb.height⟩ else none

/-- Modelled from the spec: the usvg aspect/fit policy; only the default
policy matters to this slice, so internals stay opaque. -/
structure Aspect where
  tag : ℕ
  deriving DecidableEq, Repr

/-- The default (identity) aspect/fit policy, `usvg::AspectRatio::default()`. -/
def Aspect.default : Aspect := ⟨0⟩

/-- `usvg::ViewBox`: a crop rectangle plus an aspect/fit policy. -/
structure ViewBox where
  rect : URect
  aspect : Aspect
  deriving DecidableEq, Repr

/-- A tiny_skia 2x3 affine transform (single precision in the source). -/
structure Transform where
  sx : ℚ
  ky : ℚ
  kx : ℚ
  sy : ℚ
  tx : ℚ
  ty : ℚ
  deriving DecidableEq, Repr

/-- `tiny_skia::Transform::default()`: the identity transform. -/
def Transform.default : Transform := ⟨1, 0, 0, 1, 0, 0⟩

/-- Modelled from the spec: `tiny_skia::Transform::pre_concat` — the composed
transform applies `o` first and `t` second. -/
def Transform.pre_concat (t o : Transform) : Transform :=
  ⟨t.sx * o.sx + t.kx * o.ky,
   t.ky * o.sx + t.sy * o.ky,
   t.sx * o.kx + t.kx * o.sy,
   t.ky * o.kx + t.sy * o.sy,
   t.sx * o.tx + t.kx * o.ty + t.tx,
   t.ky * o.tx + t.sy * o.ty + t.ty⟩

/-- A usvg affine transform (a b c d e f, double precision). -/
structure UTransform where
  a : ℚ
  b : ℚ
  c : ℚ
  d : ℚ
  e : ℚ
  f : ℚ
  deriving DecidableEq, Repr

/-- `ConvTransform::to_native` from the source: repack a usvg transform as a
tiny_skia transform via `from_row(a, b, c, d, e, f)` (f64→f32 narrowing of
in-range values elided in the exact model). -/
def UTransform.to_native (t : UTransform) : Transform := ⟨t.a, t.b, t.c, t.d, t.e, t.f⟩

/-- The usvg identity transform. -/
def UTransform.default : UTransform := ⟨1, 0, 0, 1, 0, 0⟩

/-- The abstract 16-value blend-mode enumeration (`usvg::BlendMode`). -/
inductive UBlendMode where
  | normal
  | multiply
  | screen
  | overlay
  | darken
  | lighten
  | colorDodge
  | colorBurn
  | hardLight
  | softLight
  | difference
  | exclusion
  | hue
  | saturation
  | color
  | luminosity
  deriving DecidableEq, Repr, Fintype

/-- The backend compositing operator enumeration (`tiny_skia::BlendMode`). -/
inductive TSBlendMode where
  | clear
  | source
  | destination
  | sourceOver
  | destinationOver
  | sourceIn
  | destinationIn
  | sourceOut
  | destinationOut
  | sourceAtop
  | destinationAtop
  | xor
  | plus
  | modulate
  | screen
  | overlay
  | darken
  | lighten
  | colorDodge
  | colorBurn
  | hardLight
  | softLight
  | difference
  | exclusion
  | multiply
  | hue
  | saturation
  | color
  | luminosity
  deriving DecidableEq, Repr, Fintype

/-- `convert_blend_mode` from the source: the exhaustive match from usvg blend
modes to tiny_skia compositing operators. -/
def convert_blend_mode (mode : UBlendMode) : TSBlendMode :=
  match mode with
  | .normal => .sourceOver
  | .multiply => .multiply
  | .screen => .screen
  | .overlay => .overlay
  | .darken => .darken
  | .lighten => .lighten
  | .colorDodge => .colorDodge
  | .colorBurn => .colorBurn
  | .hardLight => .hardLight
  | .softLight => .softLight
  | .difference => .difference
  | .exclusion => .exclusion
  | .hue => .hue
  | .saturation => .saturation
  | .color => .color
  | .luminosity => .luminosity

/-- Opaque reference to a usvg clip-path definition (internals external). -/
abbrev ClipPathRef := ℕ

/-- Opaque reference to a usvg mask definition (internals external). -/
abbrev MaskRef := ℕ

/-- Opaque reference to a usvg filter (internals external). -/
abbrev FilterRef := ℕ

/-- Opaque usvg paint descriptor (internals external). -/
abbrev PaintRef := ℕ

/-- Opaque usvg path payload (internals external). -/
abbrev UPathData := ℕ

/-- Opaque usvg image payload (internals external). -/
abbrev UImageData := ℕ

/-- Opaque usvg text payload (internals external). -/
abbrev UTextData := ℕ

/-- A resolved clip path (`crate::clip::ClipPath`), internals external. -/
structure ClipPath where
  idx : ℕ
  deriving DecidableEq, Repr

/-- A resolved mask (`crate::mask::Mask`), internals external. -/
structure Mask where
  idx : ℕ
  deriving DecidableEq, Repr

/-- A resolved filter (`crate::filter::Filter`), internals external. -/
structure Filter where
  idx : ℕ
  deriving DecidableEq, Repr

/-- A resolved concrete paint (`crate::paint_server::Paint`), internals external. -/
structure Paint where
  idx : ℕ
  deriving DecidableEq, Repr

/-- A fill-pass leaf (`crate::path::FillPath`), internals external. -/
structure FillPath where
  idx : ℕ
  deriving DecidableEq, Repr

/-- A stroke-pass leaf (`crate::path::StrokePath`), internals external. -/
structure StrokePath where
  idx : ℕ
  deriving DecidableEq, Repr

/-- An image leaf (`crate::image::Image`), internals external. -/
structure Image where
  idx : ℕ
  deriving DecidableEq, Repr

/-- The fields of `usvg::Group` consumed by the converter (input contract of
the spec). -/
structure UGroup where
  transform : UTransform
  opacity : ℚ
  blend_mode : UBlendMode
  isolate : Bool
  clip_path : Option ClipPathRef
  mask : Option MaskRef
  filters : List FilterRef
  filter_fill : Option PaintRef
  filter_stroke : Option PaintRef
  deriving DecidableEq, Repr

/-- The kind of an input scene node (`usvg::NodeKind`). -/
inductive UNodeKind where
  | group : UGroup → UNodeKind
  | path : UPathData → UNodeKind
  | image : UImageData → UNodeKind
  | text : UTextData → UNodeKind
  deriving DecidableEq, Repr

/-- An input scene node (`usvg::Node`): a kind plus its ordered children. -/
inductive UNode where
  | node : UNodeKind → List UNode → UNode
  deriving Repr

/-- Modelled from the spec: the externally supplied isolation predicate
(`usvg::Group::should_isolate`) — true when the group requests isolation
explicitly, or has a non-opaque opacity, a clip path, a mask, a non-default
blend mode, or a non-empty filter chain. -/
def UGroup.should_isolate (g : UGroup) : Bool :=
  g.isolate || decide (g.opacity ≠ 1) || g.clip_path.isSome || g.mask.isSome
    || decide (g.blend_mode ≠ UBlendMode.normal) || decide (g.filters ≠ [])

mutual

/-- Modelled from the spec: `usvg::Tree::has_text_nodes` — whether any node of
the subtree is of text kind. -/
def UNode.hasTextNodes : UNode → Bool
  | .node (.text _) _ => true
  | .node (.group _) cs => hasTextNodesList cs
  | .node (.path _) cs => hasTextNodesList cs
  | .node (.image _) cs => hasTextNodesList cs

/-- Helper of `UNode.hasTextNodes` for a list of subtrees. -/
def hasTextNodesList : List UNode → Bool
  | [] => false
  | c :: rest => c.hasTextNodes || hasTextNodesList rest

end

/-- An output render node (source enum `Node`); the fields of the source
struct `Group` are inlined into the `group` constructor, in source order. -/
inductive RNode where
  | group (opacity : ℚ) (blend_mode : TSBlendMode) (clip_path : Option ClipPath)
      (mask : Option Mask) (filters : List Filter) (filter_fill : Option Paint)
      (filter_stroke : Option Paint) (bbox : PathBbox) (children : List RNode)
  | fillPath (p : FillPath)
  | strokePath (p : StrokePath)
  | image (i : Image)
  deriving Repr

/-- The output render tree (source struct `Tree`). -/
structure RTree where
  size : Size
  view_box : ViewBox
  content_area : Option PathBbox
  children : List RNode
  deriving Repr

/-- Modelled from the spec: the external collaborators consumed by `tree.rs` —
the filter-region resolver, the paint resolver, the clip and mask converters,
the path and image leaf converters, and usvg's subtree bounding-box
calculation.  Their internals live outside this slice, so they are abstract
function parameters with the interfaces of the spec. -/
structure Env where
  filter_convert :
    List FilterRef → Option PathBbox → Option PathBbox → Transform →
      List Filter × Option PathBbox
  paint_server_convert : PaintRef → ℚ → TSRect → Option Paint
  clip_convert : Option ClipPathRef → PathBbox → Transform → Option ClipPath
  mask_convert : Option MaskRef → PathBbox → Transform → Option Mask
  path_convert : UPathData → Transform → List RNode × Option (PathBbox × PathBbox)
  image_convert : UImageData → Transform → List RNode × Option (PathBbox × PathBbox)
  calculate_bbox : UNode → Option PathBbox

/-- The panicking `UsvgPathBboxExt::to_skia_rect` of the source: the checked
conversion is unwrapped, so failure is a panic, modelled as `Except.error`. -/
def to_skia_rect_unwrap (bb : PathBbox) : Except Unit TSRect :=
  match bb.to_skia_rect? with
  | some r => .ok r
  | none => .error ()

/-- The paint-substitution step shared by `convert_group` and
`convert_empty_group`: when a filter fill/stroke paint is declared, resolve it
at full opacity against the (unwrapped) skia rectangle of the layer bounding
box. -/
def resolve_filter_paint (env : Env) (p : Option PaintRef) (layer_bbox : PathBbox) :
    Except Unit (Option Paint) :=
  match p with
  | none => pure none
  | some paint => do
      let r ← to_skia_rect_unwrap layer_bbox
      pure (env.paint_server_convert paint 1 r)

/-- `convert_empty_group` from the source: an isolated group whose children
produced no content is dropped unless a filter may manufacture content. -/
def convert_empty_group (env : Env) (ugroup : UGroup) (transform : Transform) :
    Except Unit (List RNode × Option (PathBbox × PathBbox)) :=
  if ugroup.filters = [] then
    pure ([], none)
  else
    let fc := env.filter_convert ugroup.filters none none transform
    match fc.2 with
    | none => pure ([], none)
    | some layer_bbox => do
        let filter_fill ← resolve_filter_paint env ugroup.filter_fill layer_bbox
        let filter_stroke ← resolve_filter_paint env ugroup.filter_stroke layer_bbox
        pure ([RNode.group ugroup.opacity (convert_blend_mode ugroup.blend_mode) none none
                 fc.1 filter_fill filter_stroke layer_bbox []],
              some (layer_bbox, PathBbox.mk 0 0 1 1))

mutual

/-- `convert_node_inner` from the source: dispatch on the node kind.  The
nodes appended to the caller's children vector are returned as the first
component. -/
def convert_node_inner (env : Env) :
    UNode → Transform → Except Unit (List RNode × Option (PathBbox × PathBbox))
  | .node (.group ugroup) cs, parent_transform => convert_group env ugroup cs parent_transform
  | .node (.path upath) _, parent_transform => pure (env.path_convert upath parent_transform)
  | .node (.image uimage) _, parent_transform => pure (env.image_convert uimage parent_transform)
  | .node (.text _) _, _ => pure ([], none)

/-- `convert_group` from the source: compose the transform, flatten when the
isolation predicate is false, otherwise convert children into a fresh list,
resolve the filter region (dropping the whole subtree when a non-empty chain
yields no region), resolve substituted paints, and emit the Group node. -/
def convert_group (env : Env) (ugroup : UGroup) (cs : List UNode)
    (parent_transform : Transform) :
    Except Unit (List RNode × Option (PathBbox × PathBbox)) :=
  let transform := parent_transform.pre_concat ugroup.transform.to_native
  if ugroup.should_isolate = false then
    convert_children env cs transform
  else do
    let r ← convert_children env cs transform
    match r.2 with
    | none => convert_empty_group env ugroup transform
    | some (layer_bbox, object_bbox) =>
      let fc := env.filter_convert ugroup.filters (some layer_bbox) (some object_bbox) transform
      if ugroup.filters ≠ [] ∧ fc.2 = none then
        pure ([], none)
      else do
        let layer_bbox := fc.2.getD layer_bbox
        let filter_fill ← resolve_filter_paint env ugroup.filter_fill layer_bbox
        let filter_stroke ← resolve_filter_paint env ugroup.filter_stroke layer_bbox
        pure ([RNode.group ugroup.opacity (convert_blend_mode ugroup.blend_mode)
                 (env.clip_convert ugroup.clip_path object_bbox transform)
                 (env.mask_convert ugroup.mask object_bbox transform)
                 fc.1 filter_fill filter_stroke layer_bbox r.1],
              some (layer_bbox, object_bbox))

/-- `convert_children` from the source, final step: both running unions start
at the sentinel; the accumulation reports content only when both end away
from it. -/
def convert_children (env : Env) (cs : List UNode) (parent_transform : Transform) :
    Except Unit (List RNode × Option (PathBbox × PathBbox)) := do
  let t ← convert_children_loop env cs parent_transform new_bbox new_bbox
  match t.2.1, t.2.2 with
  | some layer_bbox, some object_bbox => pure (t.1, some (layer_bbox, object_bbox))
  | _, _ => pure (t.1, none)

/-- The `for node in parent.children()` loop of `convert_children`: convert
each child in order, appending its output nodes and expanding both running
unions with its bounding boxes when it produced content. -/
def convert_children_loop (env : Env) :
    List UNode → Transform → BboxAcc → BboxAcc →
      Except Unit (List RNode × BboxAcc × BboxAcc)
  | [], _, layer_bbox, object_bbox => pure ([], layer_bbox, object_bbox)
  | n :: rest, parent_transform, layer_bbox, object_bbox => do
      let r ← convert_node_inner env n parent_transform
      match r.2 with
      | some (node_layer_bbox, node_object_bbox) => do
          let rr ← convert_children_loop env rest parent_transform
              (expand layer_bbox node_layer_bbox) (expand object_bbox node_object_bbox)
          pure (r.1 ++ rr.1, rr.2)
      | none => do
          let rr ← convert_children_loop env rest parent_transform layer_bbox object_bbox
          pure (r.1 ++ rr.1, rr.2)

end

/-- `convert_node` from the source: convert one node into a fresh children
vector and keep only the layer bounding box. -/
def convert_node (env : Env) (n : UNode) (transform : Transform) :
    Except Unit (List RNode × Option PathBbox) := do
  let r ← convert_node_inner env n transform
  pure (r.1, r.2.map Prod.fst)

/-- The input document (`usvg::Tree`): declared size, view box and root node. -/
structure UTree where
  size : Size
  view_box : ViewBox
  root : UNode

/-- The warning logged by `Tree::from_usvg` when text nodes are present. -/
def text_warning : String := "Text nodes should be already converted into paths."

/-- The warning logged by `Tree::from_usvg_node` for a zero-size node. -/
def zero_size_warning : String := "Node has zero size."

/-- `Tree::from_usvg` from the source: whole-document build.  Diagnostics are
returned alongside the tree. -/
def Tree.from_usvg (env : Env) (tree : UTree) : Except Unit (RTree × List String) := do
  let warnings := if tree.root.hasTextNodes then [text_warning] else []
  let r ← convert_node env tree.root Transform.default
  pure (⟨{ size := tree.size, view_box := tree.view_box, content_area := r.2,
           children := r.1 }, warnings⟩)

/-- `Tree::from_usvg_node` from the source: single-subtree build.  Returns
`none` (plus a diagnostic) when the node's own bounding box is degenerate;
otherwise synthesizes a view box from that bounding box with the default
aspect policy. -/
def Tree.from_usvg_node (env : Env) (n : UNode) :
    Except Unit (Option RTree × List String) :=
  match (env.calculate_bbox n).bind PathBbox.to_rect? with
  | none => pure (none, [zero_size_warning])
  | some node_bbox => do
      let r ← convert_node env n Transform.default
      pure (some { size := node_bbox.size,
                   view_box := { rect := node_bbox, aspect := Aspect.default },
                   content_area := r.2, children := r.1 }, [])

/-- The per-child conversion results of a children list, in input order:
what each child would append and the bounding-box pair it reports.  This is
the specification view of the `for` loop of `convert_children`. -/
def childResults (env : Env) (cs : List UNode) (t : Transform) :
    Except Unit (List (List RNode × Option (PathBbox × PathBbox))) :=
  match cs with
  | [] => pure []
  | c :: rest => do
      let r ← convert_node_inner env c t
      let rs ← childResults env rest t
      pure (r :: rs)

/-- One accumulation step of the bounding-box accumulator: expand both running
unions with one child's (layer, object) contribution. -/
def accStep (acc : BboxAcc × BboxAcc) (bb : PathBbox × PathBbox) : BboxAcc × BboxAcc :=
  (expand acc.1 bb.1, expand acc.2 bb.2)

/-- Accumulate a list of (layer, object) contributions into both running
unions, left to right as the source loop does. -/
def accPair (init : BboxAcc × BboxAcc) (l : List (PathBbox × PathBbox)) : BboxAcc × BboxAcc :=
  l.foldl accStep init

/-- The final both-or-nothing check of `convert_children`: report content only
when both running unions moved away from the sentinel. -/
def pairOut : BboxAcc × BboxAcc → Option (PathBbox × PathBbox)
  | (some l, some o) => some (l, o)
  | (none, _) => none
  | (some _, none) => none

/-- A path-kind leaf input node. -/
def pnode (p : UPathData) : UNode := .node (.path p) []

/-- A text-kind leaf input node. -/
def tnode (x : UTextData) : UNode := .node (.text x) []

/-- A bounding box whose width (the numeral 2 ^ 200) overflows f64→f32
narrowing: a legitimate (finite, non-negative extent) PathBbox on which
`to_skia_rect` panics. -/
def hugeBbox : PathBbox :=
  ⟨0, 0, 1606938044258990275541962092341162602522202993782792835301376, 1⟩

/-- Concrete environment whose filter resolver produces the overflowing
region; used to exhibit the panic. -/
def envPanic : Env where
  filter_convert := fun _ _ _ _ => ([], some hugeBbox)
  paint_server_convert := fun _ _ _ => none
  clip_convert := fun _ _ _ => none
  mask_convert := fun _ _ _ => none
  path_convert := fun p _ => ([RNode.fillPath ⟨p⟩], some (⟨0, 0, 1, 1⟩, ⟨0, 0, 1, 1⟩))
  image_convert := fun _ _ => ([], none)
  calculate_bbox := fun _ => none

/-- Concrete benign environment: every resolver succeeds on a unit region. -/
def envGood : Env where
  filter_convert := fun _ _ _ _ => ([⟨7⟩], some ⟨0, 0, 1, 1⟩)
  paint_server_convert := fun _ _ _ => some ⟨5⟩
  clip_convert := fun _ _ _ => some ⟨3⟩
  mask_convert := fun _ _ _ => some ⟨4⟩
  path_convert := fun p _ => ([RNode.fillPath ⟨p⟩], some (⟨0, 0, 1, 1⟩, ⟨0, 0, 1, 1⟩))
  image_convert := fun _ _ => ([], none)
  calculate_bbox := fun _ => some ⟨0, 0, 1, 1⟩

/-- Concrete environment whose filter resolver reports no region. -/
def envDrop : Env where
  filter_convert := fun _ _ _ _ => ([], none)
  paint_server_convert := fun _ _ _ => none
  clip_convert := fun _ _ _ => none
  mask_convert := fun _ _ _ => none
  path_convert := fun p _ => ([RNode.fillPath ⟨p⟩], some (⟨0, 0, 1, 1⟩, ⟨0, 0, 1, 1⟩))
  image_convert := fun _ _ => ([], none)
  calculate_bbox := fun _ => none

/-- A plain group: opacity 1, normal blend, nothing attached — not isolated. -/
def gPlain : UGroup := ⟨UTransform.default, 1, .normal, false, none, none, [], none, none⟩

/-- A group carrying one filter and nothing else. -/
def gFilter : UGroup := ⟨UTransform.default, 1, .normal, false, none, none, [0], none, none⟩

/-- A group carrying one filter and a filter-substituted fill paint. -/
def gFilterFill : UGroup := ⟨UTransform.default, 1, .normal, false, none, none, [0], some 0, none⟩

/-- A group carrying a clip-path reference and one filter. -/
def gClipFilter : UGroup := ⟨UTransform.default, 1, .normal, false, some 0, none, [0], none, none⟩

/-- A group isolated only by its explicit isolation flag. -/
def gIso : UGroup := ⟨UTransform.default, 1, .normal, true, none, none, [], none, none⟩

/-- Concrete document whose root group holds [Shape A, Text, Shape B]. -/
def utreeTextDoc : UTree :=
  ⟨⟨1, 1⟩, ⟨⟨0, 0, 1, 1⟩, Aspect.default⟩, .node (.group gPlain) [pnode 0, tnode 0, pnode 1]⟩

theorem except_bind_ok {α β ε : Type _} (a : α) (f : α → Except ε β) :
    (Except.ok a >>= f : Except ε β) = f a := rfl

theorem except_bind_error {α β ε : Type _} (e : ε) (f : α → Except ε β) :
    (Except.error e >>= f : Except ε β) = Except.error e := rfl

theorem except_map_ok {α β ε : Type _} (f : α → β) (a : α) :
    (Except.ok a).map f = (Except.ok (f a) : Except ε β) := rfl

theorem except_map_error {α β ε : Type _} (f : α → β) (e : ε) :
    (Except.error e).map f = (Except.error e : Except ε β) := rfl

theorem except_pure {α ε : Type _} (a : α) : (pure a : Except ε α) = Except.ok a := rfl

theorem except_fmap_ok {α β ε : Type _} (f : α → β) (a : α) :
    (f <$> (Except.ok a : Except ε α)) = Except.ok (f a) := rfl

theorem except_fmap_error {α β ε : Type _} (f : α → β) (e : ε) :
    (f <$> (Except.error e : Except ε α)) = (Except.error e : Except ε β) := rfl

theorem PathBbox.ext_corners {p q : PathBbox} (hx : p.x = q.x) (hy : p.y = q.y)
    (hr : p.x + p.width = q.x + q.width) (hb : p.y + p.height = q.y + q.height) :
    p = q := by
  cases p
  cases q
  simp only [PathBbox.mk.injEq] at *
  refine ⟨hx, hy, by linarith, by linarith⟩

theorem union_x (a b : PathBbox) : (a.union b).x = min a.x b.x := rfl

theorem union_y (a b : PathBbox) : (a.union b).y = min a.y b.y := rfl

theorem union_right (a b : PathBbox) :
    (a.union b).x + (a.union b).width = max (a.x + a.width) (b.x + b.width) := by
  simp only [PathBbox.union]
  ring

theorem union_bottom (a b : PathBbox) :
    (a.union b).y + (a.union b).height = max (a.y + a.height) (b.y + b.height) := by
  simp only [PathBbox.union]
  ring

theorem union_comm (a b : PathBbox) : a.union b = b.union a :=
  PathBbox.ext_corners
    (by rw [union_x, union_x, min_comm])
    (by rw [union_y, union_y, min_comm])
    (by rw [union_right, union_right, max_comm])
    (by rw [union_bottom, union_bottom, max_comm])

theorem union_assoc (a b c : PathBbox) : (a.union b).union c = a.union (b.union c) :=
  PathBbox.ext_corners
    (by rw [union_x, union_x, union_x, union_x, min_assoc])
    (by rw [union_y, union_y, union_y, union_y, min_assoc])
    (by rw [union_right, union_right, union_right, union_right, max_assoc])
    (by rw [union_bottom, union_bottom, union_bottom, union_bottom, max_assoc])

theorem expand_right_comm (s : BboxAcc) (r₁ r₂ : PathBbox) :
    expand (expand s r₁) r₂ = expand (expand s r₂) r₁ := by
  cases s with
  | none => simp only [expand, Option.some.injEq]; exact union_comm r₁ r₂
  | some s =>
      simp only [expand, Option.some.injEq]
      rw [union_assoc, union_assoc, union_comm r₁ r₂]

theorem accStep_right_comm (p : BboxAcc × BboxAcc) (b₁ b₂ : PathBbox × PathBbox) :
    accStep (accStep p b₁) b₂ = accStep (accStep p b₂) b₁ := by
  simp only [accStep]
  rw [expand_right_comm, expand_right_comm p.2]

theorem accPair_nil (init : BboxAcc × BboxAcc) : accPair init [] = init := rfl

theorem accPair_cons (init : BboxAcc × BboxAcc) (b : PathBbox × PathBbox)
    (l : List (PathBbox × PathBbox)) :
    accPair init (b :: l) = accPair (accStep init b) l := rfl

theorem accPair_perm {l₁ l₂ : List (PathBbox × PathBbox)} (p : l₁.Perm l₂) :
    ∀ init, accPair init l₁ = accPair init l₂ := by
  induction p with
  | nil => intro init; rfl
  | cons x _p ih => intro init; rw [accPair_cons, accPair_cons, ih]
  | swap x y l =>
      intro init
      rw [accPair_cons, accPair_cons, accPair_cons, accPair_cons, accStep_right_comm]
  | trans _p _q ih₁ ih₂ => intro init; rw [ih₁, ih₂]

theorem narrowF32_of_small {q : ℚ} (h : |q| < f32Overflow) : narrowF32 q = some q :=
  if_pos h

theorem narrowF32_huge :
    narrowF32 (1606938044258990275541962092341162602522202993782792835301376 : ℚ) = none := by
  rw [narrowF32, if_neg]
  rw [not_lt, f32Overflow, abs_of_nonneg (by positivity)]
  norm_num

theorem to_skia_rect_unit :
    PathBbox.to_skia_rect? ⟨0, 0, 1, 1⟩ = some ⟨0, 0, 1, 1⟩ := by
  have h0 : |(0 : ℚ)| < f32Overflow := by rw [f32Overflow]; norm_num
  have h1 : |(1 : ℚ)| < f32Overflow := by rw [f32Overflow]; norm_num
  simp only [PathBbox.to_skia_rect?, narrowF32_of_small h0, narrowF32_of_small h1,
    Option.bind_eq_bind, Option.some_bind]
  rw [rect_from_xywh, rect_from_ltrb, if_pos]
  · norm_num
  · refine ⟨h0, h0, ?_, ?_, by norm_num, by norm_num⟩ <;>
      · rw [f32Overflow]; norm_num

theorem to_skia_rect_huge : PathBbox.to_skia_rect? hugeBbox = none := by
  have h0 : |(0 : ℚ)| < f32Overflow := by rw [f32Overflow]; norm_num
  simp only [hugeBbox, PathBbox.to_skia_rect?, narrowF32_of_small h0, narrowF32_huge,
    Option.bind_eq_bind, Option.some_bind, Option.none_bind]

theorem convert_children_loop_spec (env : Env) (cs : List UNode) (t : Transform) :
    ∀ la oa, convert_children_loop env cs t la oa =
      (childResults env cs t).map fun rs =>
        ((rs.map Prod.fst).flatten, accPair (la, oa) (rs.filterMap Prod.snd)) := by
  induction cs with
  | nil =>
      intro la oa
      simp [convert_children_loop, childResults, accPair, except_pure, except_map_ok]
  | cons c rest ih =>
      intro la oa
      rw [convert_children_loop]
      cases h : convert_node_inner env c t with
      | error e =>
          rw [childResults, h]
          simp [except_bind_error, except_map_error]
      | ok r =>
          obtain ⟨rns, rbb⟩ := r
          rw [childResults, h, except_bind_ok, except_bind_ok]
          cases rbb with
          | none =>
              cases h2 : childResults env rest t <;>
                simp [ih, h2, except_pure, except_bind_ok, except_bind_error, except_map_ok,
                  except_map_error, except_fmap_ok, except_fmap_error, accPair_cons, accStep,
                  List.filterMap_cons]
          | some bb =>
              obtain ⟨nl, no⟩ := bb
              cases h2 : childResults env rest t <;>
                simp [ih, h2, except_pure, except_bind_ok, except_bind_error, except_map_ok,
                  except_map_error, except_fmap_ok, except_fmap_error, accPair_cons, accStep,
                  List.filterMap_cons]

theorem convert_children_eq (env : Env) (cs : List UNode) (t : Transform) :
    convert_children env cs t =
      (childResults env cs t).map fun rs =>
        ((rs.map Prod.fst).flatten,
          pairOut (accPair (new_bbox, new_bbox) (rs.filterMap Prod.snd))) := by
  rw [convert_children, convert_children_loop_spec]
  cases h2 : childResults env cs t with
  | error e => simp [except_map_error, except_bind_error]
  | ok rs =>
      simp only [except_map_ok, except_bind_ok]
      rcases hacc : accPair (new_bbox, new_bbox) (rs.filterMap Prod.snd) with ⟨la, oa⟩
      cases la <;> cases oa <;> simp [pairOut, except_pure]

/-- C1: for a group with a non-empty filter chain whose children produced
renderable content, when filter-region resolution returns no region the whole
group is dropped: conversion appends nothing to the caller's children list and
returns no bounding boxes, discarding every already-converted descendant. -/
theorem filter_invalid_drops_group (env : Env) (ugroup : UGroup) (cs : List UNode)
    (parent_transform : Transform) (gns : List RNode) (lb ob : PathBbox)
    (hf : ugroup.filters ≠ [])
    (hc : convert_children env cs (parent_transform.pre_concat ugroup.transform.to_native) =
      .ok (gns, some (lb, ob)))
    (hr : (env.filter_convert ugroup.filters (some lb) (some ob)
        (parent_transform.pre_concat ugroup.transform.to_native)).2 = none) :
    convert_group env ugroup cs parent_transform = .ok ([], none) := by
  have hiso : ugroup.should_isolate = true := by
    simp [UGroup.should_isolate, hf]
  simp [convert_group, hiso, hc, hr, hf, except_bind_ok, except_pure]

theorem filter_invalid_drops_group_witness :
    convert_group envDrop gFilter [pnode 0] Transform.default = .ok ([], none) :=
  filter_invalid_drops_group envDrop gFilter [pnode 0] Transform.default
    [RNode.fillPath ⟨0⟩] ⟨0, 0, 1, 1⟩ ⟨0, 0, 1, 1⟩ (by decide)
    (by simp [convert_children, convert_children_loop, convert_node_inner, pnode, envDrop,
      new_bbox, expand, except_pure, except_bind_ok, except_fmap_ok])
    rfl

/-- C2: a group whose isolation predicate is false is flattened: its
conversion is exactly the conversion of its children with the composed
(inherited times local) transform into the caller's list — the per-child
outputs concatenated in input order, no Group wrapper — and the reported
boxes are the plain accumulation of the children's boxes. -/
theorem non_isolated_group_flattens (env : Env) (ugroup : UGroup) (cs : List UNode)
    (parent_transform : Transform) (h : ugroup.should_isolate = false) :
    convert_group env ugroup cs parent_transform =
      convert_children env cs (parent_transform.pre_concat ugroup.transform.to_native)
    ∧ (∀ rs, childResults env cs (parent_transform.pre_concat ugroup.transform.to_native) =
          .ok rs →
        convert_group env ugroup cs parent_transform =
          .ok ((rs.map Prod.fst).flatten,
            pairOut (accPair (new_bbox, new_bbox) (rs.filterMap Prod.snd)))) := by
  have h1 : convert_group env ugroup cs parent_transform =
      convert_children env cs (parent_transform.pre_concat ugroup.transform.to_native) := by
    simp [convert_group, h]
  refine ⟨h1, fun rs hrs => ?_⟩
  rw [h1, convert_children_eq, hrs, except_map_ok]

theorem non_isolated_group_flattens_witness :
    convert_group envGood gPlain [pnode 0] Transform.default =
      .ok ([RNode.fillPath ⟨0⟩], some (⟨0, 0, 1, 1⟩, ⟨0, 0, 1, 1⟩)) := by
  have h2 := (non_isolated_group_flattens envGood gPlain [pnode 0] Transform.default
      (by decide)).2 [([RNode.fillPath ⟨0⟩], some (⟨0, 0, 1, 1⟩, ⟨0, 0, 1, 1⟩))]
    (by simp [childResults, convert_node_inner, pnode, envGood, except_pure, except_bind_ok])
  simpa [pairOut, accPair, accStep, expand, new_bbox] using h2

/-- C4: the children accumulation starts both running unions at the
no-content sentinel, and reports content (a `some` pair) exactly when both
the layer union and the object union left the sentinel; if either union is
still the sentinel the accumulation reports no content. -/
theorem children_bbox_sentinel_spec (env : Env) (cs : List UNode) (t : Transform)
    (ns : List RNode) (la oa : BboxAcc)
    (h : convert_children_loop env cs t new_bbox new_bbox = .ok (ns, la, oa)) :
    (∀ l o, la = some l → oa = some o → convert_children env cs t = .ok (ns, some (l, o)))
    ∧ ((la = none ∨ oa = none) → convert_children env cs t = .ok (ns, none)) := by
  constructor
  · rintro l o rfl rfl
    rw [convert_children, h, except_bind_ok]
    rfl
  · rintro (rfl | rfl)
    · rw [convert_children, h, except_bind_ok]
      rfl
    · rw [convert_children, h, except_bind_ok]
      cases la <;> rfl

theorem children_bbox_sentinel_spec_witness :
    convert_children envGood [pnode 0] Transform.default =
      .ok ([RNode.fillPath ⟨0⟩], some (⟨0, 0, 1, 1⟩, ⟨0, 0, 1, 1⟩)) :=
  (children_bbox_sentinel_spec envGood [pnode 0] Transform.default
      [RNode.fillPath ⟨0⟩] (some ⟨0, 0, 1, 1⟩) (some ⟨0, 0, 1, 1⟩)
      (by simp [convert_children_loop, convert_node_inner, pnode, envGood, new_bbox, expand,
        except_pure, except_bind_ok, except_fmap_ok])).1
    ⟨0, 0, 1, 1⟩ ⟨0, 0, 1, 1⟩ rfl rfl

/-- C6: the single-subtree build fails (returns nothing, with a diagnostic
and no partial tree) when the node's own bounding box is degenerate, and for
a valid bounding box it returns a tree whose view box is that rectangle with
the default aspect policy and whose size is that rectangle's size. -/
theorem from_usvg_node_spec (env : Env) (n : UNode) :
    ((env.calculate_bbox n).bind PathBbox.to_rect? = none →
        Tree.from_usvg_node env n = .ok (none, [zero_size_warning]))
    ∧ (∀ r cs lb, (env.calculate_bbox n).bind PathBbox.to_rect? = some r →
        convert_node env n Transform.default = .ok (cs, lb) →
        Tree.from_usvg_node env n =
          .ok (some { size := r.size, view_box := { rect := r, aspect := Aspect.default },
                      content_area := lb, children := cs }, [])) := by
  constructor
  · intro h
    simp [Tree.from_usvg_node, h, except_pure]
  · intro r cs lb h1 h2
    simp [Tree.from_usvg_node, h1, h2, except_bind_ok, except_pure]

theorem from_usvg_node_spec_witness :
    Tree.from_usvg_node envDrop (pnode 0) = .ok (none, [zero_size_warning]) :=
  (from_usvg_node_spec envDrop (pnode 0)).1 rfl

/-- C7: the blend-mode conversion is a total, exhaustive mapping from the
16-value abstract enumeration into the backend operators in which distinct
source variants map to distinct target variants. -/
theorem convert_blend_mode_bijective :
    (∀ a b : UBlendMode, convert_blend_mode a = convert_blend_mode b → a = b)
    ∧ Fintype.card UBlendMode = 16 := by
  constructor
  · decide
  · decide

theorem convert_blend_mode_bijective_witness : UBlendMode.hue = UBlendMode.hue :=
  convert_blend_mode_bijective.1 UBlendMode.hue UBlendMode.hue rfl

/-- C9: pairwise bounding-box union is commutative and associative, so
accumulating any permutation of a fixed multiset of child (layer, object)
pairs yields the same final unions; the nodes appended by the children loop
are nonetheless the per-child outputs concatenated in input order. -/
theorem union_accumulation_perm_spec :
    (∀ a b : PathBbox, a.union b = b.union a)
    ∧ (∀ a b c : PathBbox, (a.union b).union c = a.union (b.union c))
    ∧ (∀ l₁ l₂ : List (PathBbox × PathBbox), l₁.Perm l₂ →
        ∀ init, accPair init l₁ = accPair init l₂)
    ∧ (∀ (env : Env) (cs : List UNode) (t : Transform) rs,
        childResults env cs t = .ok rs →
          convert_children_loop env cs t new_bbox new_bbox =
            .ok ((rs.map Prod.fst).flatten,
              accPair (new_bbox, new_bbox) (rs.filterMap Prod.snd))) := by
  refine ⟨union_comm, union_assoc, fun l₁ l₂ p => accPair_perm p, ?_⟩
  intro env cs t rs hrs
  rw [convert_children_loop_spec, hrs, except_map_ok]

theorem union_accumulation_perm_spec_witness :
    accPair (new_bbox, new_bbox)
        [(⟨0, 0, 1, 1⟩, ⟨0, 0, 1, 1⟩), (⟨2, 2, 1, 1⟩, ⟨2, 2, 1, 1⟩)] =
      accPair (new_bbox, new_bbox)
        [(⟨2, 2, 1, 1⟩, ⟨2, 2, 1, 1⟩), (⟨0, 0, 1, 1⟩, ⟨0, 0, 1, 1⟩)] :=
  union_accumulation_perm_spec.2.2.1 _ _
    (List.Perm.swap (⟨2, 2, 1, 1⟩, ⟨2, 2, 1, 1⟩) (⟨0, 0, 1, 1⟩, ⟨0, 0, 1, 1⟩) [])
    (new_bbox, new_bbox)

/-- C5: a text-kind node is skipped — it appends no output node and reports
no bounding box — and its siblings still convert, so a children list
[Shape A, Text, Shape B] produces exactly A's outputs followed by B's
outputs; a diagnostic is recorded by the tree builder whenever the document
contains a text node. -/
theorem text_skip_spec (env : Env) (a b : UPathData) (x : UTextData) (t : Transform) :
    (∀ (y : UTextData) (cs : List UNode) (pt : Transform),
        convert_node_inner env (.node (.text y) cs) pt = .ok ([], none))
    ∧ convert_children env [pnode a, tnode x, pnode b] t =
        convert_children env [pnode a, pnode b] t
    ∧ (∀ ns bb, convert_children env [pnode a, tnode x, pnode b] t = .ok (ns, bb) →
        ns = (env.path_convert a t).1 ++ (env.path_convert b t).1)
    ∧ (∀ g : UGroup,
        (UNode.node (.group g) [pnode a, tnode x, pnode b]).hasTextNodes = true)
    ∧ (∀ (utree : UTree) (res : RTree × List String), utree.root.hasTextNodes = true →
        Tree.from_usvg env utree = .ok res → res.2 = [text_warning]) := by
  have hcr : childResults env [pnode a, tnode x, pnode b] t =
      .ok [env.path_convert a t, ([], none), env.path_convert b t] := by
    simp [childResults, convert_node_inner, pnode, tnode, except_pure, except_bind_ok]
  have hcr2 : childResults env [pnode a, pnode b] t =
      .ok [env.path_convert a t, env.path_convert b t] := by
    simp [childResults, convert_node_inner, pnode, except_pure, except_bind_ok]
  refine ⟨?_, ?_, ?_, ?_, ?_⟩
  · intro y cs pt
    simp [convert_node_inner, except_pure]
  · rw [convert_children_eq, convert_children_eq, hcr, hcr2, except_map_ok, except_map_ok]
    simp [List.filterMap_cons]
  · intro ns bb h3
    rw [convert_children_eq, hcr, except_map_ok] at h3
    have h4 := congrArg (fun z => match z with | Except.ok p => p.1 | Except.error _ => []) h3
    simpa using h4.symm
  · intro g
    simp [UNode.hasTextNodes, hasTextNodesList, pnode, tnode]
  · intro utree res h4 h5
    rw [Tree.from_usvg, h4] at h5
    cases h6 : convert_node env utree.root Transform.default with
    | error e =>
        rw [h6, except_bind_error] at h5
        cases h5
    | ok r =>
        rw [h6, except_bind_ok, except_pure] at h5
        simp only [Except.ok.injEq] at h5
        rw [← h5]
        simp

theorem text_skip_spec_witness :
    [RNode.fillPath ⟨0⟩, RNode.fillPath ⟨1⟩] =
      (envGood.path_convert 0 Transform.default).1 ++
        (envGood.path_convert 1 Transform.default).1 :=
  (text_skip_spec envGood 0 1 0 Transform.default).2.2.1
    [RNode.fillPath ⟨0⟩, RNode.fillPath ⟨1⟩] (some (⟨0, 0, 1, 1⟩, ⟨0, 0, 1, 1⟩))
    (by
      rw [convert_children_eq]
      simp [childResults, convert_node_inner, pnode, tnode, envGood, except_pure,
        except_bind_ok, except_map_ok, pairOut, accPair, accStep, expand, new_bbox,
        PathBbox.union])

theorem convert_children_nil (env : Env) (t : Transform) :
    convert_children env [] t = .ok ([], none) := by
  simp [convert_children, convert_children_loop, new_bbox, except_pure, except_bind_ok]

theorem to_skia_rect_unwrap_some {bb : PathBbox} {rct : TSRect}
    (h : bb.to_skia_rect? = some rct) : to_skia_rect_unwrap bb = .ok rct := by
  unfold to_skia_rect_unwrap
  rw [h]

theorem to_skia_rect_unwrap_none {bb : PathBbox} (h : bb.to_skia_rect? = none) :
    to_skia_rect_unwrap bb = .error () := by
  unfold to_skia_rect_unwrap
  rw [h]

theorem resolve_filter_paint_panic (env : Env) (q : PaintRef) {bb : PathBbox}
    (h : bb.to_skia_rect? = none) :
    resolve_filter_paint env (some q) bb = .error () := by
  unfold resolve_filter_paint
  simp only [to_skia_rect_unwrap_none h, except_bind_error]

theorem convert_group_empty_route (env : Env) (ugroup : UGroup) (cs : List UNode)
    (parent_transform : Transform) (gns : List RNode)
    (hiso : ugroup.should_isolate = true)
    (hc : convert_children env cs (parent_transform.pre_concat ugroup.transform.to_native) =
      .ok (gns, none)) :
    convert_group env ugroup cs parent_transform =
      convert_empty_group env ugroup (parent_transform.pre_concat ugroup.transform.to_native) := by
  simp [convert_group, hiso, hc, except_bind_ok]

theorem resolve_filter_paint_ok (env : Env) (p : Option PaintRef) {bb : PathBbox}
    {rct : TSRect} (h : bb.to_skia_rect? = some rct) :
    resolve_filter_paint env p bb = .ok (p.bind fun q => env.paint_server_convert q 1 rct) := by
  cases p with
  | none => rfl
  | some q =>
      unfold resolve_filter_paint
      simp only [to_skia_rect_unwrap_some h, except_bind_ok]
      rfl

/-- C3 counterexample: an isolated, contentless group with a non-empty filter
chain whose resolution yields a region, but with a declared filter fill whose
rectangle conversion fails: conversion panics, so no Group is emitted and no
bounding boxes are returned, contrary to the claim. -/
theorem empty_group_emission_counterexample :
    (envPanic.filter_convert gFilterFill.filters none none Transform.default).2 = some hugeBbox
    ∧ convert_empty_group envPanic gFilterFill Transform.default = .error () := by
  refine ⟨rfl, ?_⟩
  have hfc : ∀ t, envPanic.filter_convert gFilterFill.filters none none t =
      ([], some hugeBbox) := fun _ => rfl
  have hff : gFilterFill.filter_fill = some 0 := rfl
  have hfne : gFilterFill.filters ≠ [] := by decide
  simp [convert_empty_group, hfc, hff, hfne,
    resolve_filter_paint_panic envPanic 0 to_skia_rect_huge, except_bind_error,
    except_bind_ok, except_pure]

/-- C3 (amended): for an isolated group whose children produced no content —
an empty filter chain drops the group; a non-empty chain resolved with both
base boxes absent and no region drops the group; a resolved region yields,
provided the paint-substitution steps return normally, a Group with empty
children and the region as its layer bounding box, with the unit square
returned as object bounding box; if a paint-substitution step panics the
whole conversion panics instead. -/
theorem empty_group_spec (env : Env) (ugroup : UGroup) (cs : List UNode)
    (parent_transform : Transform) (gns : List RNode)
    (hiso : ugroup.should_isolate = true)
    (hc : convert_children env cs (parent_transform.pre_concat ugroup.transform.to_native) =
      .ok (gns, none)) :
    (ugroup.filters = [] → convert_group env ugroup cs parent_transform = .ok ([], none))
    ∧ (ugroup.filters ≠ [] →
        (env.filter_convert ugroup.filters none none
            (parent_transform.pre_concat ugroup.transform.to_native)).2 = none →
        convert_group env ugroup cs parent_transform = .ok ([], none))
    ∧ (∀ r ff fs, ugroup.filters ≠ [] →
        (env.filter_convert ugroup.filters none none
            (parent_transform.pre_concat ugroup.transform.to_native)).2 = some r →
        resolve_filter_paint env ugroup.filter_fill r = .ok ff →
        resolve_filter_paint env ugroup.filter_stroke r = .ok fs →
        convert_group env ugroup cs parent_transform =
          .ok ([RNode.group ugroup.opacity (convert_blend_mode ugroup.blend_mode) none none
                  (env.filter_convert ugroup.filters none none
                    (parent_transform.pre_concat ugroup.transform.to_native)).1
                  ff fs r []],
               some (r, ⟨0, 0, 1, 1⟩)))
    ∧ (∀ r, ugroup.filters ≠ [] →
        (env.filter_convert ugroup.filters none none
            (parent_transform.pre_concat ugroup.transform.to_native)).2 = some r →
        resolve_filter_paint env ugroup.filter_fill r = .error () →
        convert_group env ugroup cs parent_transform = .error ())
    ∧ (∀ r ff, ugroup.filters ≠ [] →
        (env.filter_convert ugroup.filters none none
            (parent_transform.pre_concat ugroup.transform.to_native)).2 = some r →
        resolve_filter_paint env ugroup.filter_fill r = .ok ff →
        resolve_filter_paint env ugroup.filter_stroke r = .error () →
        convert_group env ugroup cs parent_transform = .error ()) := by
  have hroute := convert_group_empty_route env ugroup cs parent_transform gns hiso hc
  refine ⟨?_, ?_, ?_, ?_, ?_⟩
  · intro hf0
    rw [hroute]
    simp [convert_empty_group, hf0, except_pure]
  · intro hf hr2
    rw [hroute]
    simp [convert_empty_group, hf, hr2, except_pure]
  · intro r ff fs hf hr2 hfill hst
    rw [hroute]
    simp [convert_empty_group, hf, hr2, hfill, hst, except_bind_ok, except_pure]
  · intro r hf hr2 hfill
    rw [hroute]
    simp [convert_empty_group, hf, hr2, hfill, except_bind_error, except_pure]
  · intro r ff hf hr2 hfill hst
    rw [hroute]
    simp [convert_empty_group, hf, hr2, hfill, hst, except_bind_ok, except_bind_error,
      except_pure]

theorem empty_group_spec_witness :
    convert_group envGood gFilter [] Transform.default =
      .ok ([RNode.group 1 .sourceOver none none [⟨7⟩] none none ⟨0, 0, 1, 1⟩ []],
           some (⟨0, 0, 1, 1⟩, ⟨0, 0, 1, 1⟩)) :=
  (empty_group_spec envGood gFilter [] Transform.default [] (by decide)
      (convert_children_nil envGood _)).2.2.1
    ⟨0, 0, 1, 1⟩ none none (by decide) rfl rfl rfl

/-- C8 counterexample: a group carrying a clip-path reference and a filter,
with no renderable children, is emitted along the empty-group path with its
clip-path field set to none even though the clip resolver would resolve the
reference — the reference is ignored, not resolved. -/
theorem group_resolution_counterexample :
    convert_group envGood gClipFilter [] Transform.default =
      .ok ([RNode.group 1 .sourceOver none none [⟨7⟩] none none ⟨0, 0, 1, 1⟩ []],
           some (⟨0, 0, 1, 1⟩, ⟨0, 0, 1, 1⟩))
    ∧ gClipFilter.clip_path = some 0
    ∧ envGood.clip_convert gClipFilter.clip_path (PathBbox.mk 0 0 1 1)
        (Transform.default.pre_concat gClipFilter.transform.to_native) = some ⟨3⟩ := by
  refine ⟨?_, rfl, rfl⟩
  have hiso : gClipFilter.should_isolate = true := by decide
  rw [convert_group_empty_route envGood gClipFilter [] Transform.default [] hiso
    (convert_children_nil envGood _)]
  simp [convert_empty_group, gClipFilter, envGood, resolve_filter_paint, except_bind_ok,
    except_pure, convert_blend_mode]

/-- C8 (amended): a Group emitted along the non-empty-children path has its
clip-path and mask references resolved against the accumulated object
bounding box and the composed transform, and its declared filter-substituted
paints resolved at full opacity against the final layer bounding box; a Group
emitted along the empty-children path ignores its clip-path and mask
references (both fields are none) and resolves declared paints the same
way. -/
theorem group_resolution_spec (env : Env) (ugroup : UGroup) (cs : List UNode)
    (parent_transform : Transform) (gns : List RNode) :
    (∀ lb ob rct,
        ugroup.should_isolate = true →
        convert_children env cs (parent_transform.pre_concat ugroup.transform.to_native) =
          .ok (gns, some (lb, ob)) →
        ¬(ugroup.filters ≠ [] ∧
          (env.filter_convert ugroup.filters (some lb) (some ob)
              (parent_transform.pre_concat ugroup.transform.to_native)).2 = none) →
        ((env.filter_convert ugroup.filters (some lb) (some ob)
              (parent_transform.pre_concat ugroup.transform.to_native)).2.getD lb).to_skia_rect? =
          some rct →
        convert_group env ugroup cs parent_transform =
          .ok ([RNode.group ugroup.opacity (convert_blend_mode ugroup.blend_mode)
                  (env.clip_convert ugroup.clip_path ob
                    (parent_transform.pre_concat ugroup.transform.to_native))
                  (env.mask_convert ugroup.mask ob
                    (parent_transform.pre_concat ugroup.transform.to_native))
                  (env.filter_convert ugroup.filters (some lb) (some ob)
                    (parent_transform.pre_concat ugroup.transform.to_native)).1
                  (ugroup.filter_fill.bind fun q => env.paint_server_convert q 1 rct)
                  (ugroup.filter_stroke.bind fun q => env.paint_server_convert q 1 rct)
                  ((env.filter_convert ugroup.filters (some lb) (some ob)
                    (parent_transform.pre_concat ugroup.transform.to_native)).2.getD lb) gns],
               some ((env.filter_convert ugroup.filters (some lb) (some ob)
                  (parent_transform.pre_concat ugroup.transform.to_native)).2.getD lb, ob)))
    ∧ (∀ r rct,
        ugroup.should_isolate = true →
        convert_children env cs (parent_transform.pre_concat ugroup.transform.to_native) =
          .ok (gns, none) →
        ugroup.filters ≠ [] →
        (env.filter_convert ugroup.filters none none
            (parent_transform.pre_concat ugroup.transform.to_native)).2 = some r →
        r.to_skia_rect? = some rct →
        convert_group env ugroup cs parent_transform =
          .ok ([RNode.group ugroup.opacity (convert_blend_mode ugroup.blend_mode) none none
                  (env.filter_convert ugroup.filters none none
                    (parent_transform.pre_concat ugroup.transform.to_native)).1
                  (ugroup.filter_fill.bind fun q => env.paint_server_convert q 1 rct)
                  (ugroup.filter_stroke.bind fun q => env.paint_server_convert q 1 rct)
                  r []],
               some (r, ⟨0, 0, 1, 1⟩))) := by
  constructor
  · intro lb ob rct hiso hc hnd hrct
    simp [convert_group, hiso, hc, hnd, except_bind_ok, except_pure,
      resolve_filter_paint_ok env ugroup.filter_fill hrct,
      resolve_filter_paint_ok env ugroup.filter_stroke hrct]
  · intro r rct hiso hc hf hr2 hrct
    rw [convert_group_empty_route env ugroup cs parent_transform gns hiso hc]
    simp [convert_empty_group, hf, hr2, except_bind_ok, except_pure,
      resolve_filter_paint_ok env ugroup.filter_fill hrct,
      resolve_filter_paint_ok env ugroup.filter_stroke hrct]

theorem group_resolution_spec_witness :
    convert_group envGood gIso [pnode 0] Transform.default =
      .ok ([RNode.group 1 .sourceOver (some ⟨3⟩) (some ⟨4⟩) [⟨7⟩] none none
              ⟨0, 0, 1, 1⟩ [RNode.fillPath ⟨0⟩]],
           some (⟨0, 0, 1, 1⟩, ⟨0, 0, 1, 1⟩)) :=
  (group_resolution_spec envGood gIso [pnode 0] Transform.default [RNode.fillPath ⟨0⟩]).1
    ⟨0, 0, 1, 1⟩ ⟨0, 0, 1, 1⟩ ⟨0, 0, 1, 1⟩ (by decide)
    (by simp [convert_children, convert_children_loop, convert_node_inner, pnode, envGood,
      new_bbox, expand, except_pure, except_bind_ok, except_fmap_ok])
    (by simp [gIso])
    to_skia_rect_unit

/-- C10: the bounding-box-to-device-rectangle conversion used on resolved
layer bounding boxes is not total: `hugeBbox` is a finite, non-negative-extent
bounding box whose f32-narrowed coordinates form no valid rectangle, and
converting a group that declares a filter-substituted fill paint against it
panics (propagates an error) instead of dropping the node — both along the
empty-children path and along the content path. -/
theorem to_skia_rect_panic_reachable :
    PathBbox.to_skia_rect? hugeBbox = none
    ∧ (0 : ℚ) ≤ hugeBbox.width ∧ (0 : ℚ) ≤ hugeBbox.height
    ∧ convert_group envPanic gFilterFill [] Transform.default = .error ()
    ∧ convert_group envPanic gFilterFill [pnode 0] Transform.default = .error () := by
  refine ⟨to_skia_rect_huge, by norm_num [hugeBbox], by norm_num [hugeBbox], ?_, ?_⟩
  · have hiso : gFilterFill.should_isolate = true := by decide
    have hfc : ∀ t, envPanic.filter_convert gFilterFill.filters none none t =
        ([], some hugeBbox) := fun _ => rfl
    have hff : gFilterFill.filter_fill = some 0 := rfl
    have hfne : gFilterFill.filters ≠ [] := by decide
    rw [convert_group_empty_route envPanic gFilterFill [] Transform.default [] hiso
      (convert_children_nil envPanic _)]
    simp [convert_empty_group, hfc, hff, hfne,
      resolve_filter_paint_panic envPanic 0 to_skia_rect_huge, except_bind_error,
      except_bind_ok, except_pure]
  · have hiso : gFilterFill.should_isolate = true := by decide
    have hc : convert_children envPanic [pnode 0]
        (Transform.default.pre_concat gFilterFill.transform.to_native) =
        .ok ([RNode.fillPath ⟨0⟩], some (⟨0, 0, 1, 1⟩, ⟨0, 0, 1, 1⟩)) := by
      simp [convert_children, convert_children_loop, convert_node_inner, pnode, envPanic,
        new_bbox, expand, except_pure, except_bind_ok, except_fmap_ok]
    have hfc : ∀ lb ob t, envPanic.filter_convert gFilterFill.filters lb ob t =
        ([], some hugeBbox) := fun _ _ _ => rfl
    have hff : gFilterFill.filter_fill = some 0 := rfl
    simp [convert_group, hiso, hc, hfc, hff,
      resolve_filter_paint_panic envPanic 0 to_skia_rect_huge, except_bind_ok,
      except_bind_error, except_pure]

end Resvg
